import Mathlib

/-!
Shallow embedding of `src/main.py` (LLM Code Deployment API, FastAPI app,
version 0.4.0).  External collaborators (the OpenRouter LLM endpoint, the
GitHub REST API via PyGithub, and the evaluation callback endpoint) are
modelled as oracles supplied to each function; the functions themselves are
transliterated from the Python source.  Python exceptions are modelled with
`Except`; a function that catches every exception is total.
-/

namespace LLMDeploy

/-- Configuration loaded from environment variables at startup
(`SECRET`, `GH_PAT`, `OPENROUTER_API_KEY`).  Startup fails unless
`SECRET` and `GH_PAT` are set, so they are plain strings here; the
OpenRouter key may be absent. -/
structure Config where
  SECRET : String
  GITHUB_TOKEN : String
  OPENROUTER_API_KEY : Option String
  deriving Repr, DecidableEq

/-- One attachment dict from the request body: `attachment.get("name")`
and presence of the `"url"` key are the only accesses the code makes. -/
structure Attachment where
  name : Option String
  url : Option String
  deriving Repr, DecidableEq

/-- The `TaskRequest` pydantic model. -/
structure TaskRequest where
  email : String
  secret : String
  task : String
  round : Int
  nonce : String
  brief : String
  checks : List String
  evaluation_url : String
  attachments : List Attachment
  deriving Repr, DecidableEq

/-- Outbound calls the service makes, for tracing side effects. -/
inductive Effect where
  | llmCall
  | ghCreateRepo (name : String)
  | ghGetRepo (name : String)
  | ghGetContents (path : String)
  | ghUpdateFile (path : String)
  | ghCreateFile (path : String)
  | ghEnablePages
  | notifyPost (url : String)
  deriving Repr, DecidableEq

/-- `message.get('content', "")`: the `content` key of a choice's message. -/
structure LLMMessage where
  content : Option String
  deriving Repr, DecidableEq

/-- One element of the response's `choices` list; `message = none` models a
choice dict without a `'message'` key. -/
structure LLMChoice where
  message : Option LLMMessage
  deriving Repr, DecidableEq

/-- The decoded JSON body of an OpenRouter response
(`result.get("choices", [])`). -/
structure LLMBody where
  choices : List LLMChoice
  deriving Repr, DecidableEq

/-- Outcome of the single `session.post` to the OpenRouter endpoint:
either a transport-level failure (`requests` exception, including retry
exhaustion inside the resilient session) or an HTTP response with a status
code and a JSON body (`none` models a body `.json()` cannot decode). -/
inductive LLMOutcome where
  | transportError (msg : String)
  | response (status : Nat) (body : Option LLMBody)
  deriving Repr, DecidableEq

/-- The constant pieces of the `offline_mock_code` HTML template.  The
Python source is one f-string with a single interpolation hole
`'{sample_image_uri}'`; we split it at that hole. -/
def MOCK_HTML_PRE : String :=
  "<!DOCTYPE html>\n<html>\n<head>\n    <title>Sample Page</title>\n</head>\n<body>\n<script>\nconst params = new URLSearchParams(window.location.search);\nconst imageUrl = params.get(\x27url\x27) || \x27"

def MOCK_HTML_POST : String :=
  "\x27;\nconsole.log(\"Using image URL:\", imageUrl);\n</script>\n</body>\n</html>"

def MOCK_README : String :=
  "# Offline Mock README\n\nThis was generated as a fallback."

/-- `offline_mock_code(brief, sample_image_uri)`: the deterministic fallback
file mapping.  (`brief` is accepted but unused, exactly as in the source.) -/
def offline_mock_code (brief : String) (sample_image_uri : String) :
    List (String × String) :=
  let _ := brief
  [("index.html", MOCK_HTML_PRE ++ sample_image_uri ++ MOCK_HTML_POST),
   ("README.md", MOCK_README)]

/-- The attachment scan in `generate_code_with_openrouter`: first attachment
whose `name` equals `"sample.png"` and which has a `"url"` key wins;
otherwise the default URI. -/
def findSampleUrl : List Attachment → String
  | [] => "https://example.com/sample.png"
  | a :: rest =>
    match a.url with
    | some u => if a.name = some "sample.png" then u else findSampleUrl rest
    | none => findSampleUrl rest

/-- The fence-stripping logic applied to the generated text:
if "```" occurs, take the text between the first pair of fences, strip it,
and drop a leading "html" marker. -/
def extractHtml (generated_text : String) : String :=
  let parts := generated_text.splitOn "```"
  if parts.length > 1 then
    let html0 := (parts.getD 1 "").trim
    if html0.toLower.startsWith "html" then (html0.drop 4).trim else html0
  else generated_text.trim

/-- `generate_code_with_openrouter(brief, checks, attachments)`.
Every exception raised after the API-key check happens inside the
`try` whose handler catches `Exception`, so the translation is a total
function: each failure shape maps to the `offline_mock_code` fallback.
Returns the file mapping together with the trace of outbound calls. -/
def generate_code_with_openrouter (cfg : Config) (lw : LLMOutcome)
    (brief : String) (checks : List String) (attachments : List Attachment) :
    List (String × String) × List Effect :=
  let _ := checks
  match cfg.OPENROUTER_API_KEY with
  | none => (offline_mock_code brief "", [])
  | some _ =>
    let sample_image_uri := findSampleUrl attachments
    match lw with
    | LLMOutcome.transportError _ =>
      (offline_mock_code brief sample_image_uri, [Effect.llmCall])
    | LLMOutcome.response status body =>
      if 400 ≤ status ∧ status < 600 then
        (offline_mock_code brief sample_image_uri, [Effect.llmCall])
      else
        match body with
        | none => (offline_mock_code brief sample_image_uri, [Effect.llmCall])
        | some b =>
          match b.choices with
          | [] => (offline_mock_code brief sample_image_uri, [Effect.llmCall])
          | c :: _ =>
            match c.message with
            | none => (offline_mock_code brief sample_image_uri, [Effect.llmCall])
            | some m =>
              let generated_text := m.content.getD ""
              let html_code := extractHtml generated_text
              let readme_content :=
                "# Task: " ++ brief ++ "\n\nGenerated using OpenRouter model."
              ([("index.html", html_code), ("README.md", readme_content)],
               [Effect.llmCall])

/-- The ways the LLM call can fail: transport error, non-2xx status
(`raise_for_status` raises for 400–599), undecodable body, empty `choices`,
or a first choice without a `message`. -/
def llmCallFailed : LLMOutcome → Bool
  | LLMOutcome.transportError _ => true
  | LLMOutcome.response status body =>
    (400 ≤ status && status < 600) ||
    match body with
    | none => true
    | some b =>
      match b.choices with
      | [] => true
      | c :: _ => c.message.isNone

/-- Result of a PyGithub call: success, or a `GithubException` carrying an
HTTP status and a message. -/
inductive GHRes (α : Type) where
  | ok (a : α) : GHRes α
  | err (status : Nat) (msg : String) : GHRes α
  deriving Repr, DecidableEq

/-- The fields of a PyGithub `Repository` object the code reads. -/
structure Repo where
  full_name : String
  html_url : String
  name : String
  default_branch : String
  deriving Repr, DecidableEq

/-- Oracle for the GitHub REST API: what each call would return.
`getContents` yields the existing file's revision sha on success;
`updateFile`/`createFile` yield the new commit's sha. -/
structure GHWorld where
  login : String
  createRepo : String → GHRes Repo
  getRepo : String → GHRes Repo
  getContents : String → GHRes String
  updateFile : String → String → String → GHRes String
  createFile : String → String → GHRes String
  pagesStatus : Nat

/-- A Python exception escaping `deploy_to_github`: in this code path only
`GithubException`s are raised (re-raised repo errors and `create_file`
errors inside the `except` handler). -/
inductive PyErr where
  | gh (status : Nat) (msg : String)
  deriving Repr, DecidableEq

/-- `str(e)` used to build the HTTP 500 detail. -/
def PyErr.msg : PyErr → String
  | PyErr.gh _ m => m

/-- `task_name.lower().replace(" ", "-").replace("_", "-")`.
All three steps act character by character (both `replace` calls have a
one-character pattern and a one-character replacement, and lowering never
produces a space or an underscore), so the chain is a single map over the
characters. -/
def normalizeRepoName (task_name : String) : String :=
  ⟨task_name.data.map fun c =>
    let c2 := c.toLower
    if c2 = ' ' ∨ c2 = '_' then '-' else c2⟩

/-- The `files["LICENSE"] = ...` dict assignment: overwrite the value if the
key exists (keeping its position), else append the pair. -/
def dictSet (d : List (String × String)) (k v : String) :
    List (String × String) :=
  if d.any (fun kv => kv.1 = k) then
    d.map (fun kv => if kv.1 = k then (k, v) else kv)
  else d ++ [(k, v)]

def LICENSE_TEXT : String := "MIT License text here..."

/-- One iteration of the file loop in `deploy_to_github`: try
`get_contents`+`update_file`; on a `GithubException` with status 404,
`create_file` (whose own exception escapes the handler and propagates);
on any other `GithubException`, log and skip.  Returns the updated
`latest_commit_sha`, whether a write landed and its commit sha, and the
trace of GitHub calls made. -/
def upsertFile (gw : GHWorld) (latest : Option String)
    (path content : String) :
    List Effect × Except PyErr (Option String × Option String) :=
  match gw.getContents path with
  | GHRes.ok sha =>
    match gw.updateFile path content sha with
    | GHRes.ok commitSha =>
      ([Effect.ghGetContents path, Effect.ghUpdateFile path],
       Except.ok (some commitSha, some commitSha))
    | GHRes.err s m =>
      if s = 404 then
        match gw.createFile path content with
        | GHRes.ok commitSha =>
          ([Effect.ghGetContents path, Effect.ghUpdateFile path,
            Effect.ghCreateFile path],
           Except.ok (some commitSha, some commitSha))
        | GHRes.err s2 m2 =>
          ([Effect.ghGetContents path, Effect.ghUpdateFile path,
            Effect.ghCreateFile path],
           Except.error (PyErr.gh s2 m2))
      else
        let _ := m
        ([Effect.ghGetContents path, Effect.ghUpdateFile path],
         Except.ok (latest, none))
  | GHRes.err s m =>
    if s = 404 then
      match gw.createFile path content with
      | GHRes.ok commitSha =>
        ([Effect.ghGetContents path, Effect.ghCreateFile path],
         Except.ok (some commitSha, some commitSha))
      | GHRes.err s2 m2 =>
        ([Effect.ghGetContents path, Effect.ghCreateFile path],
         Except.error (PyErr.gh s2 m2))
    else
      let _ := m
      ([Effect.ghGetContents path], Except.ok (latest, none))

/-- The `for path, content in files.items()` loop.  `written` accumulates,
as a ghost observation, the `(path, commit sha)` of each file operation
that succeeded (the source only keeps `latest_commit_sha`). -/
def writeFiles (gw : GHWorld) :
    List (String × String) → Option String → List (String × String) →
    List Effect × Except PyErr (Option String × List (String × String))
  | [], latest, written => ([], Except.ok (latest, written))
  | (path, content) :: rest, latest, written =>
    match upsertFile gw latest path content with
    | (effs, Except.error e) => (effs, Except.error e)
    | (effs, Except.ok (latest2, wrote)) =>
      let written2 :=
        match wrote with
        | some sha => written ++ [(path, sha)]
        | none => written
      let (effs2, res) := writeFiles gw rest latest2 written2
      (effs ++ effs2, res)

/-- The repo create-or-reuse step: `create_repo`; on a `GithubException`
with status 422 fall back to `get_repo` (whose failure propagates); any
other creation failure is re-raised. -/
def resolveRepo (gw : GHWorld) (repo_name : String) :
    List Effect × Except PyErr Repo :=
  match gw.createRepo repo_name with
  | GHRes.ok repo => ([Effect.ghCreateRepo repo_name], Except.ok repo)
  | GHRes.err s m =>
    if s = 422 then
      match gw.getRepo repo_name with
      | GHRes.ok repo =>
        ([Effect.ghCreateRepo repo_name, Effect.ghGetRepo repo_name],
         Except.ok repo)
      | GHRes.err s2 m2 =>
        ([Effect.ghCreateRepo repo_name, Effect.ghGetRepo repo_name],
         Except.error (PyErr.gh s2 m2))
    else
      ([Effect.ghCreateRepo repo_name], Except.error (PyErr.gh s m))

/-- The dict `deploy_to_github` returns. -/
structure DeployResult where
  repo_url : String
  commit_sha : Option String
  pages_url : String
  deriving Repr, DecidableEq

/-- Everything after the repo is resolved: add the LICENSE entry, run the
file loop, best-effort-enable GitHub Pages (failure only logged), and build
the result dict.  The successful-writes list is returned alongside as a
ghost observation. -/
def deployFiles (gw : GHWorld) (repo : Repo)
    (files0 : List (String × String)) :
    List Effect × Except PyErr (DeployResult × List (String × String)) :=
  let files := dictSet files0 "LICENSE" LICENSE_TEXT
  match writeFiles gw files none [] with
  | (effs, Except.error e) => (effs, Except.error e)
  | (effs, Except.ok (latest, written)) =>
    (effs ++ [Effect.ghEnablePages],
     Except.ok
       ({ repo_url := repo.html_url,
          commit_sha := latest,
          pages_url :=
            "https://" ++ gw.login ++ ".github.io/" ++ repo.name ++ "/" },
        written))

/-- `deploy_to_github(task_name, files)`. -/
def deploy_to_github (gw : GHWorld) (task_name : String)
    (files0 : List (String × String)) :
    List Effect × Except PyErr (DeployResult × List (String × String)) :=
  let repo_name := normalizeRepoName task_name
  match resolveRepo gw repo_name with
  | (effs, Except.error e) => (effs, Except.error e)
  | (effs, Except.ok repo) =>
    let (effs2, res) := deployFiles gw repo files0
    (effs ++ effs2, res)

/-- The urllib3 `Retry` configuration built by `create_resilient_session`:
`Retry(total=5, backoff_factor=1, status_forcelist=[429,500,502,503,504],
allowed_methods=[...])`. -/
structure RetryPolicy where
  total : Nat
  backoff_factor : Nat
  status_forcelist : List Nat
  deriving Repr, DecidableEq

def retry_strategy : RetryPolicy :=
  { total := 5, backoff_factor := 1,
    status_forcelist := [429, 500, 502, 503, 504] }

/-- urllib3's `Retry.BACKOFF_MAX`. -/
def BACKOFF_MAX : Nat := 120

/-- urllib3 `Retry.get_backoff_time` before sending retry number
`consecutive` (1-based count of consecutive failures so far): `0` for the
first retry, then `backoff_factor * 2^(consecutive-1)`, capped at
`BACKOFF_MAX`. -/
def get_backoff_time (p : RetryPolicy) (consecutive : Nat) : Nat :=
  if consecutive ≤ 1 then 0
  else min BACKOFF_MAX (p.backoff_factor * 2 ^ (consecutive - 1))

/-- Outcome of one run of the transport layer's retry loop: how many
requests went out, the sleep before each retry, and the final status
(`none` when retries were exhausted, which `requests` surfaces as a
`RetryError`). -/
structure RetryRun where
  attempts : Nat
  delays : List Nat
  outcome : Option Nat
  deriving Repr, DecidableEq

/-- The transport-layer retry loop for one request through the resilient
session: `status n` is the status code the endpoint returns to the n-th
request (0-based).  A status in the forcelist consumes a retry (with its
backoff sleep); any other status is returned.  `remaining` starts at
`p.total`. -/
def retryAux (p : RetryPolicy) (status : Nat → Nat) (attempt : Nat) :
    Nat → List Nat → RetryRun
  | 0, delays =>
    let s := status attempt
    if s ∈ p.status_forcelist then
      { attempts := attempt + 1, delays := delays, outcome := none }
    else
      { attempts := attempt + 1, delays := delays, outcome := some s }
  | remaining + 1, delays =>
    let s := status attempt
    if s ∈ p.status_forcelist then
      retryAux p status (attempt + 1) remaining
        (delays ++ [get_backoff_time p (attempt + 1)])
    else
      { attempts := attempt + 1, delays := delays, outcome := some s }

def runRetries (p : RetryPolicy) (status : Nat → Nat) : RetryRun :=
  retryAux p status 0 p.total []

/-- `notify_evaluation(url, data)`: posts through a resilient session and
calls `raise_for_status`; every `requests.exceptions.RequestException`
(retry exhaustion as well as a 4xx/5xx final status) is caught and only
logged.  Returns whether the notification succeeded — the caller ignores
this, mirroring the source's bare call. -/
def notify_evaluation (nw : Nat → Nat) (url : String) : Bool :=
  let _ := url
  match (runRetries retry_strategy nw).outcome with
  | none => false
  | some s => if 400 ≤ s ∧ s < 600 then false else true

/-- The payload posted to the evaluation URL and echoed as the endpoint's
JSON response. -/
structure EvalPayload where
  email : String
  task : String
  round : Int
  nonce : String
  repo_url : String
  commit_sha : Option String
  pages_url : String
  deriving Repr, DecidableEq

/-- What the `POST /` endpoint answers: an `HTTPException` with a status
and detail, or the success payload. -/
inductive Response where
  | httpError (status : Nat) (detail : String)
  | success (payload : EvalPayload)
  deriving Repr, DecidableEq

/-- `process_task(req)`: secret check, generate, deploy, notify, respond.
A `GithubException` escaping `deploy_to_github` is caught by the outer
`except Exception` and turned into a 500 with
`f"Task processing failed: {str(e)}"`.  Returns the response together
with the trace of outbound calls. -/
def process_task (cfg : Config) (lw : LLMOutcome) (gw : GHWorld)
    (nw : Nat → Nat) (req : TaskRequest) : Response × List Effect :=
  if req.secret ≠ cfg.SECRET then
    (Response.httpError 401 "Invalid secret", [])
  else
    let (files, effs1) :=
      generate_code_with_openrouter cfg lw req.brief req.checks
        req.attachments
    match deploy_to_github gw req.task files with
    | (effs2, Except.error e) =>
      (Response.httpError 500 ("Task processing failed: " ++ e.msg),
       effs1 ++ effs2)
    | (effs2, Except.ok (d, _written)) =>
      let evaluation_payload : EvalPayload :=
        { email := req.email, task := req.task, round := req.round,
          nonce := req.nonce, repo_url := d.repo_url,
          commit_sha := d.commit_sha, pages_url := d.pages_url }
      let _ := notify_evaluation nw req.evaluation_url
      (Response.success evaluation_payload,
       effs1 ++ effs2 ++ [Effect.notifyPost req.evaluation_url])

/-! ## Theorems -/

/-- C1: a `TaskRequest` whose `secret` differs from the configured shared
secret is answered with HTTP 401 "Invalid secret", and the trace of
outbound calls is empty: neither the generator nor the publisher nor the
notifier runs, and no state-changing call is made. -/
theorem secret_mismatch_rejected_no_effects (cfg : Config)
    (lw : LLMOutcome) (gw : GHWorld) (nw : Nat → Nat) (req : TaskRequest)
    (h : req.secret ≠ cfg.SECRET) :
    process_task cfg lw gw nw req =
      (Response.httpError 401 "Invalid secret", []) := by
  simp [process_task, h]

def cfgW : Config :=
  { SECRET := "shared", GITHUB_TOKEN := "tok", OPENROUTER_API_KEY := some "key" }

def gwW : GHWorld :=
  { login := "alice",
    createRepo := fun n =>
      GHRes.ok { full_name := "alice/" ++ n,
                 html_url := "https://github.com/alice/" ++ n,
                 name := n, default_branch := "main" },
    getRepo := fun _ => GHRes.err 404 "Not Found",
    getContents := fun _ => GHRes.err 404 "Not Found",
    updateFile := fun _ _ _ => GHRes.err 500 "update failed",
    createFile := fun p _ => GHRes.ok ("sha-" ++ p),
    pagesStatus := 201 }

def reqBadSecret : TaskRequest :=
  { email := "a@b.c", secret := "wrong", task := "My Task", round := 1,
    nonce := "n1", brief := "a page", checks := ["has h1"],
    evaluation_url := "https://cb.example/notify", attachments := [] }

theorem secret_mismatch_rejected_no_effects_witness :
    reqBadSecret.secret ≠ cfgW.SECRET ∧
    process_task cfgW (LLMOutcome.transportError "down") gwW (fun _ => 200)
      reqBadSecret = (Response.httpError 401 "Invalid secret", []) :=
  ⟨by decide,
   secret_mismatch_rejected_no_effects cfgW (LLMOutcome.transportError "down")
     gwW (fun _ => 200) reqBadSecret (by decide)⟩

/-- Shared helper: on any failing LLM outcome (with the key present) the
generator yields the offline fallback with the scanned sample URI. -/
theorem generate_fallback_of_failure (cfg : Config) (k : String)
    (lw : LLMOutcome) (brief : String) (checks : List String)
    (atts : List Attachment)
    (hk : cfg.OPENROUTER_API_KEY = some k)
    (hf : llmCallFailed lw = true) :
    generate_code_with_openrouter cfg lw brief checks atts =
      (offline_mock_code brief (findSampleUrl atts), [Effect.llmCall]) := by
  cases lw with
  | transportError m => simp [generate_code_with_openrouter, hk]
  | response status body =>
    by_cases hcond : 400 ≤ status ∧ status < 600
    · simp [generate_code_with_openrouter, hk, hcond]
    · simp only [llmCallFailed, Bool.or_eq_true, Bool.and_eq_true,
        decide_eq_true_eq] at hf
      rcases hf with hf | hf
      · exact absurd ⟨hf.1, hf.2⟩ hcond
      · cases body with
        | none => simp [generate_code_with_openrouter, hk, hcond]
        | some b =>
          dsimp only at hf
          cases hb : b.choices with
          | nil => simp [generate_code_with_openrouter, hk, hcond, hb]
          | cons c cs =>
            rw [hb] at hf
            dsimp only at hf
            cases hm : c.message with
            | none => simp [generate_code_with_openrouter, hk, hcond, hb, hm]
            | some msg => rw [hm] at hf; simp at hf

/-- C2: with an API key configured, every failing LLM call — transport
error, non-2xx status, undecodable body, empty `choices`, or first choice
without a `message` — makes the generator return the offline fallback
template (whose `index.html` literally contains the query-string read
`params.get('url')`), with the LLM call as the only outbound call.  The
generator is a total function of the call's outcome, so no exception
reaches its caller. -/
theorem llm_failure_returns_fallback (cfg : Config) (k : String)
    (lw : LLMOutcome) (brief : String) (checks : List String)
    (atts : List Attachment)
    (hk : cfg.OPENROUTER_API_KEY = some k)
    (hf : llmCallFailed lw = true) :
    generate_code_with_openrouter cfg lw brief checks atts =
      (offline_mock_code brief (findSampleUrl atts), [Effect.llmCall]) ∧
    ∃ p q, MOCK_HTML_PRE = p ++ "params.get(\x27url\x27)" ++ q :=
  ⟨generate_fallback_of_failure cfg k lw brief checks atts hk hf,
   ⟨"<!DOCTYPE html>\n<html>\n<head>\n    <title>Sample Page</title>\n</head>\n<body>\n<script>\nconst params = new URLSearchParams(window.location.search);\nconst imageUrl = ",
    " || \x27", rfl⟩⟩

theorem llm_failure_returns_fallback_witness :
    cfgW.OPENROUTER_API_KEY = some "key" ∧
    llmCallFailed (LLMOutcome.response 500 none) = true ∧
    (generate_code_with_openrouter cfgW (LLMOutcome.response 500 none)
        "a page" ["has h1"] [] =
      (offline_mock_code "a page" (findSampleUrl []), [Effect.llmCall]) ∧
     ∃ p q, MOCK_HTML_PRE = p ++ "params.get(\x27url\x27)" ++ q) :=
  ⟨rfl, by decide,
   llm_failure_returns_fallback cfgW "key" (LLMOutcome.response 500 none)
     "a page" ["has h1"] [] rfl (by decide)⟩

/-- C9: with no `OPENROUTER_API_KEY` the generator returns the fallback
with empty-string default image URL and makes no LLM call, for every
attachments list (the attachment scan is never reached); only when the key
is present and the call fails does the fallback receive the scanned URI,
which is the `url` of the first `sample.png` attachment carrying one, or
`https://example.com/sample.png` when there is none. -/
theorem missing_key_fallback_empty_uri (cfg : Config) (k : String)
    (lw : LLMOutcome) (brief : String) (checks : List String)
    (atts rest : List Attachment) (a : Attachment) (u : String) :
    (cfg.OPENROUTER_API_KEY = none →
      generate_code_with_openrouter cfg lw brief checks atts =
        (offline_mock_code brief "", [])) ∧
    (cfg.OPENROUTER_API_KEY = some k → llmCallFailed lw = true →
      (generate_code_with_openrouter cfg lw brief checks atts).1 =
        offline_mock_code brief (findSampleUrl atts)) ∧
    findSampleUrl [] = "https://example.com/sample.png" ∧
    (a.name = some "sample.png" → a.url = some u →
      findSampleUrl (a :: rest) = u) := by
  refine ⟨?_, ?_, rfl, ?_⟩
  · intro hk
    simp [generate_code_with_openrouter, hk]
  · intro hk hf
    rw [generate_fallback_of_failure cfg k lw brief checks atts hk hf]
  · intro hn hu
    simp [findSampleUrl, hn, hu]

def cfgNoKey : Config :=
  { SECRET := "shared", GITHUB_TOKEN := "tok", OPENROUTER_API_KEY := none }

def attSample : Attachment :=
  { name := some "sample.png", url := some "https://cdn.example/s.png" }

theorem missing_key_fallback_empty_uri_witness :
    generate_code_with_openrouter cfgNoKey (LLMOutcome.transportError "down")
        "a page" [] [attSample] = (offline_mock_code "a page" "", []) ∧
    (generate_code_with_openrouter cfgW (LLMOutcome.transportError "down")
        "a page" [] [attSample]).1 =
      offline_mock_code "a page" (findSampleUrl [attSample]) ∧
    findSampleUrl [attSample] = "https://cdn.example/s.png" :=
  ⟨(missing_key_fallback_empty_uri cfgNoKey "key"
      (LLMOutcome.transportError "down") "a page" [] [attSample] [] attSample
      "https://cdn.example/s.png").1 rfl,
   (missing_key_fallback_empty_uri cfgW "key"
      (LLMOutcome.transportError "down") "a page" [] [attSample] [] attSample
      "https://cdn.example/s.png").2.1 rfl rfl,
   (missing_key_fallback_empty_uri cfgW "key"
      (LLMOutcome.transportError "down") "a page" [] [attSample] [] attSample
      "https://cdn.example/s.png").2.2.2 rfl rfl⟩

/-- C4: when creating the repository fails with status 422 (name already
exists) and fetching it succeeds, the publisher reuses the existing
repository object: `deploy_to_github` raises no error at the repo stage
and proceeds to the file writes against that repository. -/
theorem existing_repo_reused (gw : GHWorld) (task : String)
    (files : List (String × String)) (repo : Repo) (m : String)
    (h1 : gw.createRepo (normalizeRepoName task) = GHRes.err 422 m)
    (h2 : gw.getRepo (normalizeRepoName task) = GHRes.ok repo) :
    resolveRepo gw (normalizeRepoName task) =
      ([Effect.ghCreateRepo (normalizeRepoName task),
        Effect.ghGetRepo (normalizeRepoName task)], Except.ok repo) ∧
    deploy_to_github gw task files =
      (Effect.ghCreateRepo (normalizeRepoName task) ::
         Effect.ghGetRepo (normalizeRepoName task) ::
         (deployFiles gw repo files).1,
       (deployFiles gw repo files).2) := by
  have hres : resolveRepo gw (normalizeRepoName task) =
      ([Effect.ghCreateRepo (normalizeRepoName task),
        Effect.ghGetRepo (normalizeRepoName task)], Except.ok repo) := by
    simp [resolveRepo, h1, h2]
  refine ⟨hres, ?_⟩
  simp [deploy_to_github, hres]

def repoX : Repo :=
  { full_name := "alice/my-task", html_url := "https://github.com/alice/my-task",
    name := "my-task", default_branch := "main" }

def gwExisting : GHWorld :=
  { gwW with
    createRepo := fun _ => GHRes.err 422 "name already exists",
    getRepo := fun _ => GHRes.ok repoX }

theorem existing_repo_reused_witness :
    gwExisting.createRepo (normalizeRepoName "My Task") =
      GHRes.err 422 "name already exists" ∧
    gwExisting.getRepo (normalizeRepoName "My Task") = GHRes.ok repoX ∧
    resolveRepo gwExisting (normalizeRepoName "My Task") =
      ([Effect.ghCreateRepo (normalizeRepoName "My Task"),
        Effect.ghGetRepo (normalizeRepoName "My Task")], Except.ok repoX) :=
  ⟨rfl, rfl,
   (existing_repo_reused gwExisting "My Task" [] repoX "name already exists"
      rfl rfl).1⟩

/-- C5: whenever the publisher returns a result, its `pages_url` is exactly
`https://{login}.github.io/{repo name}/`, a pure string computation from
the account login and the repository name — no oracle response enters it. -/
theorem pages_url_deterministic (gw : GHWorld) (repo : Repo)
    (files : List (String × String)) (effs : List Effect)
    (res : DeployResult) (written : List (String × String))
    (h : deployFiles gw repo files = (effs, Except.ok (res, written))) :
    res.pages_url = "https://" ++ gw.login ++ ".github.io/" ++ repo.name ++ "/" := by
  dsimp only [deployFiles] at h
  rcases hw : writeFiles gw (dictSet files "LICENSE" LICENSE_TEXT) none [] with
    ⟨effs0, r0⟩
  rw [hw] at h
  cases r0 with
  | error e => simp at h
  | ok p =>
    rcases p with ⟨latest, w⟩
    simp only at h
    injection h with h1 h2
    injection h2 with h2
    injection h2 with h2 h3
    rw [← h2]

theorem pages_url_deterministic_witness :
    deployFiles gwW repoX [("index.html", "<p>hi</p>")] =
      ([Effect.ghGetContents "index.html", Effect.ghCreateFile "index.html",
        Effect.ghGetContents "LICENSE", Effect.ghCreateFile "LICENSE",
        Effect.ghEnablePages],
       Except.ok
        ({ repo_url := "https://github.com/alice/my-task",
           commit_sha := some "sha-LICENSE",
           pages_url := "https://alice.github.io/my-task/" },
         [("index.html", "sha-index.html"), ("LICENSE", "sha-LICENSE")])) ∧
    ({ repo_url := "https://github.com/alice/my-task",
       commit_sha := some "sha-LICENSE",
       pages_url := "https://alice.github.io/my-task/" : DeployResult }).pages_url =
      "https://" ++ gwW.login ++ ".github.io/" ++ repoX.name ++ "/" :=
  ⟨rfl,
   pages_url_deterministic gwW repoX [("index.html", "<p>hi</p>")]
     [Effect.ghGetContents "index.html", Effect.ghCreateFile "index.html",
      Effect.ghGetContents "LICENSE", Effect.ghCreateFile "LICENSE",
      Effect.ghEnablePages]
     { repo_url := "https://github.com/alice/my-task",
       commit_sha := some "sha-LICENSE",
       pages_url := "https://alice.github.io/my-task/" }
     [("index.html", "sha-index.html"), ("LICENSE", "sha-LICENSE")] rfl⟩

/-- C6: when generation and publishing succeed, a failing notification
POST is non-fatal: the endpoint returns the success payload, and the whole
result (response and effect trace) is identical to what any other
notification outcome — including a succeeding one — would produce.
`notify_evaluation` catches every `RequestException` and only logs it. -/
theorem notify_failure_nonfatal (cfg : Config) (lw : LLMOutcome)
    (gw : GHWorld) (nw nw' : Nat → Nat) (req : TaskRequest)
    (files : List (String × String)) (effs1 effs : List Effect)
    (d : DeployResult) (written : List (String × String))
    (hsec : req.secret = cfg.SECRET)
    (hfail : notify_evaluation nw req.evaluation_url = false)
    (hgen : generate_code_with_openrouter cfg lw req.brief req.checks
      req.attachments = (files, effs1))
    (hdep : deploy_to_github gw req.task files =
      (effs, Except.ok (d, written))) :
    process_task cfg lw gw nw req =
      (Response.success
        { email := req.email, task := req.task, round := req.round,
          nonce := req.nonce, repo_url := d.repo_url,
          commit_sha := d.commit_sha, pages_url := d.pages_url },
       effs1 ++ effs ++ [Effect.notifyPost req.evaluation_url]) ∧
    process_task cfg lw gw nw req = process_task cfg lw gw nw' req := by
  have hne : ¬ req.secret ≠ cfg.SECRET := by simp [hsec]
  refine ⟨?_, rfl⟩
  simp [process_task, hne, hgen, hdep]

def reqGood : TaskRequest :=
  { email := "a@b.c", secret := "shared", task := "My Task", round := 1,
    nonce := "n1", brief := "a page", checks := ["has h1"],
    evaluation_url := "https://cb.example/notify", attachments := [] }

def filesMockW : List (String × String) :=
  offline_mock_code "a page" "https://example.com/sample.png"

def deployResW : DeployResult :=
  { repo_url := "https://github.com/alice/my-task",
    commit_sha := some "sha-LICENSE",
    pages_url := "https://alice.github.io/my-task/" }

def writtenResW : List (String × String) :=
  [("index.html", "sha-index.html"), ("README.md", "sha-README.md"),
   ("LICENSE", "sha-LICENSE")]

def effsDeployW : List Effect :=
  [Effect.ghCreateRepo "my-task",
   Effect.ghGetContents "index.html", Effect.ghCreateFile "index.html",
   Effect.ghGetContents "README.md", Effect.ghCreateFile "README.md",
   Effect.ghGetContents "LICENSE", Effect.ghCreateFile "LICENSE",
   Effect.ghEnablePages]

theorem notify_failure_nonfatal_witness :
    process_task cfgW (LLMOutcome.transportError "down") gwW (fun _ => 503)
        reqGood =
      (Response.success
        { email := reqGood.email, task := reqGood.task,
          round := reqGood.round, nonce := reqGood.nonce,
          repo_url := deployResW.repo_url,
          commit_sha := deployResW.commit_sha,
          pages_url := deployResW.pages_url },
       [Effect.llmCall] ++ effsDeployW ++
         [Effect.notifyPost reqGood.evaluation_url]) ∧
    process_task cfgW (LLMOutcome.transportError "down") gwW (fun _ => 503)
        reqGood =
      process_task cfgW (LLMOutcome.transportError "down") gwW (fun _ => 200)
        reqGood :=
  notify_failure_nonfatal cfgW (LLMOutcome.transportError "down") gwW
    (fun _ => 503) (fun _ => 200) reqGood filesMockW [Effect.llmCall]
    effsDeployW deployResW writtenResW rfl rfl rfl rfl

/-- C7: against an always-failing callback endpoint (every response status
in the forcelist), the transport layer of the resilient session sends the
initial request plus exactly `total = 5` retries and then stops with a
`RetryError` (which `notify_evaluation` catches, reporting failure); the
sleeps before the retries are the strictly increasing, capped exponential
backoff sequence `[0, 2, 4, 8, 16]`. -/
theorem notify_retry_bounded_backoff (nw : Nat → Nat) (url : String)
    (h : ∀ n, nw n ∈ retry_strategy.status_forcelist) :
    runRetries retry_strategy nw =
      { attempts := 6, delays := [0, 2, 4, 8, 16], outcome := none } ∧
    notify_evaluation nw url = false ∧
    List.Pairwise (· < ·) [0, 2, 4, 8, 16] ∧
    ∀ d ∈ [0, 2, 4, 8, 16], d ≤ BACKOFF_MAX := by
  have h' : ∀ n, nw n ∈ [429, 500, 502, 503, 504] := fun n => h n
  have hrun : runRetries retry_strategy nw =
      { attempts := 6, delays := [0, 2, 4, 8, 16], outcome := none } := by
    simp [runRetries, retryAux, retry_strategy, h', get_backoff_time,
      BACKOFF_MAX]
  refine ⟨hrun, ?_, by decide, by decide⟩
  simp [notify_evaluation, hrun]

theorem notify_retry_bounded_backoff_witness :
    (∀ n, (fun _ => 503 : Nat → Nat) n ∈ retry_strategy.status_forcelist) ∧
    (runRetries retry_strategy (fun _ => 503) =
       { attempts := 6, delays := [0, 2, 4, 8, 16], outcome := none } ∧
     notify_evaluation (fun _ => 503) "https://cb.example/notify" = false ∧
     List.Pairwise (· < ·) [0, 2, 4, 8, 16] ∧
     ∀ d ∈ [0, 2, 4, 8, 16], d ≤ BACKOFF_MAX) :=
  ⟨by intro n; show (503 : Nat) ∈ retry_strategy.status_forcelist; decide,
   notify_retry_bounded_backoff (fun _ => 503) "https://cb.example/notify"
     (by intro n; show (503 : Nat) ∈ retry_strategy.status_forcelist;
         decide)⟩

/-- A GitHub oracle in which every per-file operation succeeds: for each
path either the read succeeds and the update goes through, or the read
404s and the create goes through. -/
def fileOpsSucceed (gw : GHWorld) : Prop :=
  ∀ p c, (∃ sha cs, gw.getContents p = GHRes.ok sha ∧
            gw.updateFile p c sha = GHRes.ok cs) ∨
         (∃ m cs, gw.getContents p = GHRes.err 404 m ∧
            gw.createFile p c = GHRes.ok cs)

theorem upsertFile_succeeds (gw : GHWorld) (hops : fileOpsSucceed gw)
    (latest : Option String) (p c : String) :
    ∃ effs cs, upsertFile gw latest p c =
      (effs, Except.ok (some cs, some cs)) := by
  rcases hops p c with ⟨sha, cs, h1, h2⟩ | ⟨m, cs, h1, h2⟩
  · exact ⟨[Effect.ghGetContents p, Effect.ghUpdateFile p], cs,
      by simp [upsertFile, h1, h2]⟩
  · exact ⟨[Effect.ghGetContents p, Effect.ghCreateFile p], cs,
      by simp [upsertFile, h1, h2]⟩

theorem writeFiles_succeeds (gw : GHWorld) (hops : fileOpsSucceed gw) :
    ∀ (fs : List (String × String)) (latest : Option String)
      (written : List (String × String)),
      ∃ effs latest2 newWr,
        writeFiles gw fs latest written =
          (effs, Except.ok (latest2, written ++ newWr)) ∧
        newWr.map Prod.fst = fs.map Prod.fst := by
  intro fs
  induction fs with
  | nil => intro latest written; exact ⟨[], latest, [], by simp [writeFiles]⟩
  | cons pc rest ih =>
    intro latest written
    rcases pc with ⟨p, c⟩
    rcases upsertFile_succeeds gw hops latest p c with ⟨effs, cs, hup⟩
    rcases ih (some cs) (written ++ [(p, cs)]) with
      ⟨effs2, latest2, newWr, hw, hmap⟩
    refine ⟨effs ++ effs2, latest2, (p, cs) :: newWr, ?_, by simp [hmap]⟩
    simp [writeFiles, hup, hw]

theorem dictSet_mem (d : List (String × String)) (k v : String) :
    (k, v) ∈ dictSet d k v := by
  unfold dictSet
  split
  · rename_i h
    rw [List.any_eq_true] at h
    obtain ⟨kv, hmem, hk⟩ := h
    rw [decide_eq_true_eq] at hk
    exact List.mem_map.mpr ⟨kv, hmem, by simp [hk]⟩
  · exact List.mem_append_right _ (by simp)

/-- C8: the publisher always adds the LICENSE entry to the file mapping
before the write loop, and the loop treats it like every generated file:
whenever the repository resolves and the per-file operations succeed, the
set of files written includes `LICENSE`. -/
theorem license_always_written (gw : GHWorld) (task : String)
    (files0 : List (String × String)) (repo : Repo)
    (hrepo : gw.createRepo (normalizeRepoName task) = GHRes.ok repo)
    (hops : fileOpsSucceed gw) :
    ("LICENSE", LICENSE_TEXT) ∈ dictSet files0 "LICENSE" LICENSE_TEXT ∧
    ∃ effs res written,
      deploy_to_github gw task files0 = (effs, Except.ok (res, written)) ∧
      "LICENSE" ∈ written.map Prod.fst := by
  refine ⟨dictSet_mem files0 "LICENSE" LICENSE_TEXT, ?_⟩
  rcases writeFiles_succeeds gw hops (dictSet files0 "LICENSE" LICENSE_TEXT)
      none [] with ⟨effs, latest2, newWr, hw, hmap⟩
  refine ⟨[Effect.ghCreateRepo (normalizeRepoName task)] ++
    (effs ++ [Effect.ghEnablePages]),
    { repo_url := repo.html_url, commit_sha := latest2,
      pages_url :=
        "https://" ++ gw.login ++ ".github.io/" ++ repo.name ++ "/" },
    newWr, ?_, ?_⟩
  · simp [deploy_to_github, resolveRepo, hrepo, deployFiles, hw]
  · rw [hmap]
    exact List.mem_map.mpr
      ⟨("LICENSE", LICENSE_TEXT), dictSet_mem files0 "LICENSE" LICENSE_TEXT,
       rfl⟩

theorem license_always_written_witness :
    gwW.createRepo (normalizeRepoName "My Task") =
      GHRes.ok { full_name := "alice/my-task",
                 html_url := "https://github.com/alice/my-task",
                 name := "my-task", default_branch := "main" } ∧
    (("LICENSE", LICENSE_TEXT) ∈
        dictSet [("index.html", "<p>hi</p>")] "LICENSE" LICENSE_TEXT ∧
     ∃ effs res written,
       deploy_to_github gwW "My Task" [("index.html", "<p>hi</p>")] =
         (effs, Except.ok (res, written)) ∧
       "LICENSE" ∈ written.map Prod.fst) :=
  ⟨rfl,
   license_always_written gwW "My Task" [("index.html", "<p>hi</p>")]
     { full_name := "alice/my-task",
       html_url := "https://github.com/alice/my-task",
       name := "my-task", default_branch := "main" }
     rfl
     (fun p c => Or.inr ⟨"Not Found", "sha-" ++ p, rfl, rfl⟩)⟩

/-- Case analysis of one successful (non-raising) file-loop iteration:
either a write landed and `latest_commit_sha` became its commit sha, or
the iteration was the non-404 log-and-skip branch and `latest_commit_sha`
is untouched. -/
theorem upsertFile_cases (gw : GHWorld) (latest : Option String)
    (p c : String) (effs : List Effect) (l2 wrote : Option String)
    (h : upsertFile gw latest p c = (effs, Except.ok (l2, wrote))) :
    (∃ sha, wrote = some sha ∧ l2 = some sha) ∨
    (wrote = none ∧ l2 = latest) := by
  unfold upsertFile at h
  rcases hg : gw.getContents p with sha | ⟨s, m⟩ <;>
    rw [hg] at h <;> dsimp only at h
  · rcases hu : gw.updateFile p c sha with cs | ⟨s2, m2⟩ <;>
      rw [hu] at h <;> dsimp only at h
    · simp only [Prod.mk.injEq, Except.ok.injEq] at h
      exact Or.inl ⟨cs, h.2.2.symm, h.2.1.symm⟩
    · by_cases h4 : s2 = 404
      · rw [if_pos h4] at h
        rcases hc : gw.createFile p c with cs2 | ⟨s3, m3⟩ <;>
          rw [hc] at h <;> dsimp only at h
        · simp only [Prod.mk.injEq, Except.ok.injEq] at h
          exact Or.inl ⟨cs2, h.2.2.symm, h.2.1.symm⟩
        · simp at h
      · rw [if_neg h4] at h
        simp only [Prod.mk.injEq, Except.ok.injEq] at h
        exact Or.inr ⟨h.2.2.symm, h.2.1.symm⟩
  · by_cases h4 : s = 404
    · rw [if_pos h4] at h
      rcases hc : gw.createFile p c with cs2 | ⟨s3, m3⟩ <;>
        rw [hc] at h <;> dsimp only at h
      · simp only [Prod.mk.injEq, Except.ok.injEq] at h
        exact Or.inl ⟨cs2, h.2.2.symm, h.2.1.symm⟩
      · simp at h
    · rw [if_neg h4] at h
      simp only [Prod.mk.injEq, Except.ok.injEq] at h
      exact Or.inr ⟨h.2.2.symm, h.2.1.symm⟩

/-- Invariant of the file loop: `latest_commit_sha` is the commit sha of
the last file operation that succeeded (tracked by the ghost `written`
list), or the initial value when none has. -/
theorem writeFiles_latest_inv (gw : GHWorld) :
    ∀ (fs : List (String × String)) (latest : Option String)
      (written : List (String × String)) (effs : List Effect)
      (l : Option String) (w : List (String × String)),
      writeFiles gw fs latest written = (effs, Except.ok (l, w)) →
      latest = (written.map Prod.snd).getLast? →
      l = (w.map Prod.snd).getLast? := by
  intro fs
  induction fs with
  | nil =>
    intro latest written effs l w h hinv
    simp only [writeFiles, Prod.mk.injEq, Except.ok.injEq] at h
    rw [← h.2.2, ← h.2.1, hinv]
  | cons pc rest ih =>
    intro latest written effs l w h hinv
    rcases pc with ⟨p, c⟩
    simp only [writeFiles] at h
    rcases hup : upsertFile gw latest p c with ⟨effsU, r⟩
    rw [hup] at h
    cases r with
    | error e => simp at h
    | ok pr =>
      rcases pr with ⟨latest2, wrote⟩
      simp only at h
      rcases upsertFile_cases gw latest p c effsU latest2 wrote hup with
        ⟨sha, hw1, hw2⟩ | ⟨hw1, hw2⟩
      · subst hw1; subst hw2
        simp only at h
        rcases hrest : writeFiles gw rest (some sha) (written ++ [(p, sha)])
          with ⟨effs2, res2⟩
        rw [hrest] at h
        simp only [Prod.mk.injEq] at h
        rw [h.2] at hrest
        exact ih (some sha) (written ++ [(p, sha)]) effs2 l w hrest
          (by simp)
      · subst hw1
        rw [hw2] at h
        simp only at h
        rcases hrest : writeFiles gw rest latest written
          with ⟨effs2, res2⟩
        rw [hrest] at h
        simp only [Prod.mk.injEq] at h
        rw [h.2] at hrest
        exact ih latest written effs2 l w hrest hinv

/-- A GitHub oracle in which every per-file operation fails with a
non-404 `GithubException` (read error, or read success then non-404
update error): exactly the shape the loop logs and skips. -/
def allFileOpsFail (gw : GHWorld) : Prop :=
  ∀ p c, (∃ s m, gw.getContents p = GHRes.err s m ∧ s ≠ 404) ∨
         (∃ sha s m, gw.getContents p = GHRes.ok sha ∧
            gw.updateFile p c sha = GHRes.err s m ∧ s ≠ 404)

theorem upsertFile_skips (gw : GHWorld) (hfail : allFileOpsFail gw)
    (latest : Option String) (p c : String) :
    ∃ effs, upsertFile gw latest p c = (effs, Except.ok (latest, none)) := by
  rcases hfail p c with ⟨s, m, h1, hs⟩ | ⟨sha, s, m, h1, h2, hs⟩
  · exact ⟨[Effect.ghGetContents p], by simp [upsertFile, h1, hs]⟩
  · exact ⟨[Effect.ghGetContents p, Effect.ghUpdateFile p],
      by simp [upsertFile, h1, h2, hs]⟩

theorem writeFiles_all_skipped (gw : GHWorld) (hfail : allFileOpsFail gw) :
    ∀ (fs : List (String × String)) (latest : Option String)
      (written : List (String × String)),
      ∃ effs, writeFiles gw fs latest written =
        (effs, Except.ok (latest, written)) := by
  intro fs
  induction fs with
  | nil => intro latest written; exact ⟨[], by simp [writeFiles]⟩
  | cons pc rest ih =>
    intro latest written
    rcases pc with ⟨p, c⟩
    rcases upsertFile_skips gw hfail latest p c with ⟨effsU, hup⟩
    rcases ih latest written with ⟨effs2, hw⟩
    exact ⟨effsU ++ effs2, by simp [writeFiles, hup, hw]⟩

/-- C10: on any successful deployment, the `commit_sha` of the payload is
the sha of the last file create/update that succeeded; the endpoint echoes
it in its success response; and when every per-file operation fails with a
non-404 error (which the loop logs and skips), nothing is written and the
field is `null` while the response still reports success. -/
theorem commit_sha_last_successful_write (cfg : Config) (lw : LLMOutcome)
    (gw : GHWorld) (nw : Nat → Nat) (req : TaskRequest)
    (files : List (String × String)) (effs1 effs : List Effect)
    (res : DeployResult) (written : List (String × String))
    (hsec : req.secret = cfg.SECRET)
    (hgen : generate_code_with_openrouter cfg lw req.brief req.checks
      req.attachments = (files, effs1))
    (hdep : deploy_to_github gw req.task files =
      (effs, Except.ok (res, written))) :
    res.commit_sha = (written.map Prod.snd).getLast? ∧
    (process_task cfg lw gw nw req).1 =
      Response.success
        { email := req.email, task := req.task, round := req.round,
          nonce := req.nonce, repo_url := res.repo_url,
          commit_sha := res.commit_sha, pages_url := res.pages_url } ∧
    (allFileOpsFail gw → written = [] ∧ res.commit_sha = none) := by
  have hne : ¬ req.secret ≠ cfg.SECRET := by simp [hsec]
  have hdep0 := hdep
  unfold deploy_to_github at hdep
  dsimp only at hdep
  rcases hrr : resolveRepo gw (normalizeRepoName req.task) with ⟨effsR, rres⟩
  rw [hrr] at hdep
  cases rres with
  | error e => simp at hdep
  | ok repo =>
    dsimp only at hdep
    rcases hdf : deployFiles gw repo files with ⟨effsD, dres⟩
    rw [hdf] at hdep
    dsimp only at hdep
    simp only [Prod.mk.injEq] at hdep
    rw [hdep.2] at hdf
    unfold deployFiles at hdf
    dsimp only at hdf
    rcases hw : writeFiles gw (dictSet files "LICENSE" LICENSE_TEXT) none []
      with ⟨effs0, wres⟩
    rw [hw] at hdf
    cases wres with
    | error e => simp at hdf
    | ok pr =>
      rcases pr with ⟨latest, w⟩
      dsimp only at hdf
      simp only [Prod.mk.injEq, Except.ok.injEq] at hdf
      have hres : res =
          { repo_url := repo.html_url, commit_sha := latest,
            pages_url :=
              "https://" ++ gw.login ++ ".github.io/" ++ repo.name ++ "/" } :=
        hdf.2.1.symm
      have hwr : written = w := hdf.2.2.symm
      have hlast : latest = (w.map Prod.snd).getLast? :=
        writeFiles_latest_inv gw (dictSet files "LICENSE" LICENSE_TEXT)
          none [] effs0 latest w hw (by simp)
      refine ⟨?_, ?_, ?_⟩
      · rw [hres, hwr]; exact hlast
      · simp [process_task, hne, hgen, hdep0]
      · intro hall
        rcases writeFiles_all_skipped gw hall
          (dictSet files "LICENSE" LICENSE_TEXT) none [] with ⟨effsX, hwAll⟩
        rw [hw] at hwAll
        simp only [Prod.mk.injEq, Except.ok.injEq] at hwAll
        refine ⟨?_, ?_⟩
        · rw [hwr, ← hwAll.2.2]
        · rw [hres]
          show latest = none
          rw [← hwAll.2.1]

def gwSkipW : GHWorld :=
  { gwW with getContents := fun _ => GHRes.err 403 "forbidden" }

def deployResSkipW : DeployResult :=
  { repo_url := "https://github.com/alice/my-task",
    commit_sha := none,
    pages_url := "https://alice.github.io/my-task/" }

theorem commit_sha_last_successful_write_witness :
    deployResSkipW.commit_sha =
      (([] : List (String × String)).map Prod.snd).getLast? ∧
    (process_task cfgW (LLMOutcome.transportError "down") gwSkipW
        (fun _ => 200) reqGood).1 =
      Response.success
        { email := reqGood.email, task := reqGood.task,
          round := reqGood.round, nonce := reqGood.nonce,
          repo_url := deployResSkipW.repo_url,
          commit_sha := deployResSkipW.commit_sha,
          pages_url := deployResSkipW.pages_url } ∧
    ([] : List (String × String)) = [] ∧ deployResSkipW.commit_sha = none := by
  have hall : allFileOpsFail gwSkipW :=
    fun p c => Or.inl ⟨403, "forbidden", rfl, by decide⟩
  have h := commit_sha_last_successful_write cfgW
    (LLMOutcome.transportError "down") gwSkipW (fun _ => 200) reqGood
    filesMockW [Effect.llmCall]
    [Effect.ghCreateRepo "my-task", Effect.ghGetContents "index.html",
     Effect.ghGetContents "README.md", Effect.ghGetContents "LICENSE",
     Effect.ghEnablePages]
    deployResSkipW [] rfl rfl rfl
  exact ⟨h.1, h.2.1, h.2.2 hall⟩

/-! C3: the claim that every file create/update operation error is
surfaced as a 500-class response is refuted by the log-and-skip branch of
the file loop: a non-404 `GithubException` from `update_file` is only
printed, and the request still returns success. -/

def gwC3 : GHWorld :=
  { gwW with
    getContents := fun _ => GHRes.ok "sha0",
    updateFile := fun _ _ _ => GHRes.err 500 "boom" }

/-- C3 counterexample: in a world where the repository resolves but every
`update_file` fails with a non-404 `GithubException` (status 500,
message "boom"), the endpoint returns a success response (commit sha
`null`) instead of a 500-class failure. -/
theorem update_error_not_surfaced_cex :
    gwC3.getContents "index.html" = GHRes.ok "sha0" ∧
    gwC3.updateFile "index.html"
      (MOCK_HTML_PRE ++ "https://example.com/sample.png" ++ MOCK_HTML_POST)
      "sha0" = GHRes.err 500 "boom" ∧
    (process_task cfgW (LLMOutcome.transportError "down") gwC3
        (fun _ => 200) reqGood).1 =
      Response.success
        { email := "a@b.c", task := "My Task", round := 1, nonce := "n1",
          repo_url := "https://github.com/alice/my-task",
          commit_sha := none,
          pages_url := "https://alice.github.io/my-task/" } :=
  ⟨rfl, rfl, rfl⟩

/-- C3 amended: an error the publisher actually raises (re-raised
repository errors, or a `create_file` failure) is surfaced as a 500-class
response carrying the causing message, and the effect trace of the failing
request keeps every call already made — there is no compensating
(rollback) operation in the pipeline; whereas a per-file read/update
failure with a non-404 status is logged and skipped.  A repository
creation failure with a status other than 422 makes the publisher raise. -/
theorem publisher_raised_errors_surfaced (cfg : Config) (lw : LLMOutcome)
    (gw : GHWorld) (nw : Nat → Nat) (req : TaskRequest)
    (files : List (String × String)) (effs1 effs : List Effect) (e : PyErr)
    (latest : Option String) (p c sha : String)
    (hsec : req.secret = cfg.SECRET)
    (hgen : generate_code_with_openrouter cfg lw req.brief req.checks
      req.attachments = (files, effs1))
    (hdep : deploy_to_github gw req.task files = (effs, Except.error e)) :
    process_task cfg lw gw nw req =
      (Response.httpError 500 ("Task processing failed: " ++ e.msg),
       effs1 ++ effs) ∧
    (∀ s m, s ≠ 404 → gw.getContents p = GHRes.ok sha →
       gw.updateFile p c sha = GHRes.err s m →
       upsertFile gw latest p c =
         ([Effect.ghGetContents p, Effect.ghUpdateFile p],
          Except.ok (latest, none))) ∧
    (∀ s m, s ≠ 422 → gw.createRepo (normalizeRepoName req.task) =
        GHRes.err s m →
       deploy_to_github gw req.task files =
         ([Effect.ghCreateRepo (normalizeRepoName req.task)],
          Except.error (PyErr.gh s m))) := by
  have hne : ¬ req.secret ≠ cfg.SECRET := by simp [hsec]
  refine ⟨?_, ?_, ?_⟩
  · simp [process_task, hne, hgen, hdep]
  · intro s m hs hg hu
    simp [upsertFile, hg, hu, hs]
  · intro s m hs hcr
    simp [deploy_to_github, resolveRepo, hcr, hs]

def gwErrW : GHWorld :=
  { gwW with
    createRepo := fun _ => GHRes.err 500 "cannot create",
    getContents := fun _ => GHRes.ok "sha0",
    updateFile := fun _ _ _ => GHRes.err 500 "boom" }

theorem publisher_raised_errors_surfaced_witness :
    process_task cfgW (LLMOutcome.transportError "down") gwErrW
        (fun _ => 200) reqGood =
      (Response.httpError 500 "Task processing failed: cannot create",
       [Effect.llmCall] ++ [Effect.ghCreateRepo "my-task"]) ∧
    upsertFile gwErrW none "index.html" "x" =
      ([Effect.ghGetContents "index.html", Effect.ghUpdateFile "index.html"],
       Except.ok (none, none)) ∧
    deploy_to_github gwErrW reqGood.task filesMockW =
      ([Effect.ghCreateRepo (normalizeRepoName reqGood.task)],
       Except.error (PyErr.gh 500 "cannot create")) := by
  have h := publisher_raised_errors_surfaced cfgW
    (LLMOutcome.transportError "down") gwErrW (fun _ => 200) reqGood
    filesMockW [Effect.llmCall] [Effect.ghCreateRepo "my-task"]
    (PyErr.gh 500 "cannot create") none "index.html" "x" "sha0"
    rfl rfl rfl
  exact ⟨h.1, h.2.1 500 "boom" (by decide) rfl rfl,
    h.2.2 500 "cannot create" (by decide) rfl⟩

end LLMDeploy
